import Mathlib

/-!
Verification development for the sshx repository.

This file gives a shallow embedding, in Lean 4, of the parts of the
repository that the specification talks about:

* `pkg/types` — the `SignalingInfo` and `PoolId` wire structures;
* `cmd/signaling/data_manager.go` — the `DManager` peer-mailbox
  (bounded FIFO per peer, idle counter, watchdog, `Set`/`Get`/`Clean`);
* `cmd/signaling/server.go` — the `pull` and `push` HTTP handlers;
* `pkg/impl` — the `Sender` request envelope (`NewSender`,
  `GetAppCode`, `GetOptionCode`, `Send`) and `BaseImpl`;
* the `encoding/gob` wire codec used on both HTTP routes, modelled at
  the token level (field-tagged values, zero-valued fields omitted,
  absent fields decoded as the zero value), which is the documented
  behaviour of Go's gob stream for these flat record types.

Go machine integers (`int32`) are modelled as `Int` with explicit
wrapping at 2^32; Go maps are modelled as functions into `Option`;
Go channels with capacity 64 are modelled as lists with the capacity
check that `select`-with-`default` performs.  `DManager.Set` spans
several separate critical sections with an unlocked guard in front, so
its pieces are embedded both composed (`DMSet`, one uninterrupted call)
and individually, which makes interleavings of concurrent calls
expressible.
-/

namespace Sshx

/-- `types.PoolId` (pkg/types/pool.go): connection pool identifier. -/
structure PoolId where
  Value : Int
  Direction : Int
  ImplCode : Int
deriving DecidableEq, Repr

/-- The zero value of `PoolId`, as produced by Go's `var p PoolId`. -/
def zeroPoolId : PoolId := ⟨0, 0, 0⟩

/-- `types.SignalingInfo` (pkg/types/signal.go): one signaling envelope.
`Candidate []byte` is a byte list; `PeerType`/`RemoteRequestType` are int32. -/
structure SignalingInfo where
  Flag : Int
  Source : String
  SDP : String
  Candidate : List Nat
  Id : PoolId
  Target : String
  PeerType : Int
  RemoteRequestType : Int
deriving DecidableEq, Repr

/-- The zero value of `SignalingInfo`, the struct a gob decode starts from. -/
def zeroSignalingInfo : SignalingInfo := ⟨0, "", "", [], zeroPoolId, "", 0, 0⟩

/-! ## Token-level model of the gob codec

`encoding/gob` writes a struct as a sequence of (field number, value)
pairs in increasing field order, omits every field holding its type's
zero value, and on decode starts from the zero struct and assigns each
transmitted field; unknown fields or a value of the wrong type make the
decode fail.  We model the stream at that token level: `GobField` is one
transmitted field of `SignalingInfo`; the nested `PoolId` struct field
is carried as its own (field number, int) list. -/

inductive GobField where
  | fInt (idx : Nat) (v : Int)
  | fStr (idx : Nat) (v : String)
  | fBytes (idx : Nat) (v : List Nat)
  | fSub (idx : Nat) (v : List (Nat × Int))
deriving DecidableEq, Repr

/-- gob encoding of `PoolId`: int fields 0..2, zero fields omitted. -/
def encodePoolId (p : PoolId) : List (Nat × Int) :=
  (if p.Value ≠ 0 then [(0, p.Value)] else [])
    ++ (if p.Direction ≠ 0 then [(1, p.Direction)] else [])
    ++ (if p.ImplCode ≠ 0 then [(2, p.ImplCode)] else [])

/-- One decode step for a `PoolId` field; an out-of-range field number
fails the decode. -/
def setPoolIdField (p : PoolId) : Nat × Int → Option PoolId
  | (0, v) => some { p with Value := v }
  | (1, v) => some { p with Direction := v }
  | (2, v) => some { p with ImplCode := v }
  | _ => none

/-- gob decoding of `PoolId`: fold the transmitted fields over the zero
struct. -/
def decodePoolId (ts : List (Nat × Int)) : Option PoolId :=
  ts.foldlM setPoolIdField zeroPoolId

/-- gob encoding of `SignalingInfo`: fields 0..7 in order, zero-valued
fields (including a zero `PoolId` and an empty byte slice) omitted. -/
def encodeSignalingInfo (x : SignalingInfo) : List GobField :=
  (if x.Flag ≠ 0 then [GobField.fInt 0 x.Flag] else [])
    ++ (if x.Source ≠ "" then [GobField.fStr 1 x.Source] else [])
    ++ (if x.SDP ≠ "" then [GobField.fStr 2 x.SDP] else [])
    ++ (if x.Candidate ≠ [] then [GobField.fBytes 3 x.Candidate] else [])
    ++ (if x.Id ≠ zeroPoolId then [GobField.fSub 4 (encodePoolId x.Id)] else [])
    ++ (if x.Target ≠ "" then [GobField.fStr 5 x.Target] else [])
    ++ (if x.PeerType ≠ 0 then [GobField.fInt 6 x.PeerType] else [])
    ++ (if x.RemoteRequestType ≠ 0 then [GobField.fInt 7 x.RemoteRequestType] else [])

/-- One decode step for a `SignalingInfo` field; a field number that does
not exist, or a value of the wrong type for its field, fails the decode. -/
def setSignalingField (x : SignalingInfo) : GobField → Option SignalingInfo
  | GobField.fInt 0 v => some { x with Flag := v }
  | GobField.fStr 1 v => some { x with Source := v }
  | GobField.fStr 2 v => some { x with SDP := v }
  | GobField.fBytes 3 v => some { x with Candidate := v }
  | GobField.fSub 4 ts =>
      match decodePoolId ts with
      | some p => some { x with Id := p }
      | none => none
  | GobField.fStr 5 v => some { x with Target := v }
  | GobField.fInt 6 v => some { x with PeerType := v }
  | GobField.fInt 7 v => some { x with RemoteRequestType := v }
  | _ => none

/-- gob decoding of `SignalingInfo`: fold the transmitted fields over the
zero struct; `none` models a gob decode error. -/
def decodeSignalingInfo (fs : List GobField) : Option SignalingInfo :=
  fs.foldlM setSignalingField zeroSignalingInfo

/-- gob decode of `SignalingInfo` resumed from a partially filled struct. -/
def decodeFrom (acc : SignalingInfo) (fs : List GobField) : Option SignalingInfo :=
  fs.foldlM setSignalingField acc

/-! ## The data manager (cmd/signaling/data_manager.go)

`DManager` holds `datas : map[string]chan types.SignalingInfo` and
`alive : map[string]int`.  A Go map is a function into `Option`; the
buffered channel of capacity `MAX_BUFFER_NUMBER` is a list together with
the capacity test that the non-blocking `select { case ch <- info;
default }` performs.  The watchdog goroutines are tracked by a count
per peer id so that statements about how many watchdogs are running for
a peer are expressible. -/

/-- `LIFE_TIME_IN_SECOND` (data_manager.go line 12). -/
def LIFE_TIME_IN_SECOND : Int := 15

/-- `MAX_BUFFER_NUMBER` (data_manager.go line 13). -/
def MAX_BUFFER_NUMBER : Nat := 64

/-- State of a `DManager` plus the set of running watchdog goroutines. -/
structure DMState where
  datas : String → Option (List SignalingInfo)
  alive : String → Option Int
  wdog : String → Nat

/-- Point update of a string-keyed Go map. -/
def upd {α : Type} (f : String → α) (k : String) (v : α) : String → α :=
  fun x => if x = k then v else f x

/-- The state of `NewDManager()`: both maps empty, no watchdog running. -/
def initState : DMState :=
  { datas := fun _ => none, alive := fun _ => none, wdog := fun _ => 0 }

/-- Reading `dm.alive[id]` in Go yields the zero value 0 when the key is
absent. -/
def aliveVal (s : DMState) (id : String) : Int :=
  (s.alive id).getD 0

/-- `DManager.Get` (data_manager.go lines 37-41): map lookup, `none`
models the nil channel returned for an absent peer. -/
def DMGet (s : DMState) (id : String) : Option (List SignalingInfo) :=
  s.datas id

/-- `DManager.Clean` (data_manager.go lines 46-58): close the channel if
present and delete the peer from both maps. -/
def DMClean (s : DMState) (id : String) : DMState :=
  { s with datas := upd s.datas id none, alive := upd s.alive id none }

/-- `DManager.resetAlive` (data_manager.go lines 62-66). -/
def DMResetAlive (s : DMState) (id : String) : DMState :=
  { s with alive := upd s.alive id (some LIFE_TIME_IN_SECOND) }

/-- `DManager.Set` (data_manager.go lines 71-108): if the peer is absent,
create its capacity-64 channel, reset its counter and spawn a watchdog;
then try the non-blocking enqueue, resetting the counter on success and
dropping the message silently when the channel is full. -/
def DMSet (s : DMState) (id : String) (info : SignalingInfo) : DMState :=
  let s1 :=
    if s.datas id = none then
      DMResetAlive
        { s with datas := upd s.datas id (some []), wdog := upd s.wdog id (s.wdog id + 1) }
        id
    else s
  match s1.datas id with
  | some q =>
      if q.length < MAX_BUFFER_NUMBER then
        DMResetAlive { s1 with datas := upd s1.datas id (some (q ++ [info])) } id
      else s1
  | none => s1

/-- One pass of the watchdog loop body (data_manager.go lines 87-92):
after the loop guard `alive[id] > 0` (an unlocked map read) passes, the
goroutine sleeps one second and then decrements the counter under the
lock. -/
def tickEffect (s : DMState) (id : String) : DMState :=
  { s with alive := upd s.alive id (some (aliveVal s id - 1)) }

/-- `n` consecutive watchdog ticks with no intervening activity. -/
def tickN (s : DMState) (id : String) : Nat → DMState
  | 0 => s
  | n + 1 => tickN (tickEffect s id) id n

/-- Folding `DManager.Set` over a list of envelopes for one peer. -/
def foldSet (s : DMState) (id : String) (es : List SignalingInfo) : DMState :=
  es.foldl (fun t e => DMSet t id e) s

/-! ## The HTTP handlers (cmd/signaling/server.go) -/

/-- The one non-blocking receive that the `pull` handler performs on the
channel returned by `Get` (server.go lines 63-77): a nil channel or an
empty channel takes the `default` branch; otherwise the head of the
FIFO is dequeued. -/
def recvOne (s : DMState) (id : String) : DMState × Option SignalingInfo :=
  match s.datas id with
  | some (v :: rest) => ({ s with datas := upd s.datas id (some rest) }, some v)
  | _ => (s, none)

/-- The HTTP response the signaling server writes: status code, optional
Content-Type header, optional gob-encoded body. -/
structure HttpResponse where
  status : Nat
  contentType : Option String
  body : Option (List GobField)
deriving DecidableEq, Repr

/-- `Server.pull` (server.go lines 57-79): one non-blocking dequeue; on a
message, set Content-Type `application/binary` and write the gob
encoding; otherwise return an empty 200 response. -/
def pull (s : DMState) (selfId : String) : DMState × HttpResponse :=
  match recvOne s selfId with
  | (s', some v) => (s', ⟨200, some "application/binary", some (encodeSignalingInfo v)⟩)
  | (s', none) => (s', ⟨200, none, none⟩)

/-- `Server.push` (server.go lines 84-102): gob-decode the body; on error
answer 400 and touch nothing; on success `Set` the envelope for the
target peer and answer 200 with an empty body. -/
def push (s : DMState) (targetId : String) (body : List GobField) : DMState × HttpResponse :=
  match decodeSignalingInfo body with
  | none => (s, ⟨400, none, none⟩)
  | some info => (DMSet s targetId info, ⟨200, none, none⟩)

/-- Repeated non-blocking dequeues (the pulls a peer issues after coming
online), collecting the envelopes received. -/
def drain (s : DMState) (id : String) : Nat → DMState × List SignalingInfo
  | 0 => (s, [])
  | n + 1 =>
      match recvOne s id with
      | (s', some v) =>
          let r := drain s' id n
          (r.1, v :: r.2)
      | (s', none) => (s', [])

/-! ## The concurrency granularity of `Set`

`DManager.Set` is not one critical section.  The guard
`dm.datas[id] == nil` (data_manager.go line 73) is an *unlocked* map
read; the channel creation (lines 74-77) takes the mutex; `resetAlive`
(line 80) takes it again; the watchdog is started by a bare `go`
statement (line 83); and the final non-blocking enqueue (lines 101-108)
is a channel operation followed, on success, by another locked
`resetAlive`.  HTTP handlers run concurrently, so two `Set` calls can
interleave between the unlocked guard and the locked create.  The
actions below embed the individual sections; `DMSet` above is their
sequential composition, i.e. the behaviour of one uninterrupted call
(see `DMSet_eq_actions`). -/

/-- Lines 74-77 (locked):
`dm.datas[id] = make(chan types.SignalingInfo, MAX_BUFFER_NUMBER)` — a
plain map assignment, overwriting whatever channel another goroutine
stored since the guard was read. -/
def setCreate (s : DMState) (id : String) : DMState :=
  { s with datas := upd s.datas id (some []) }

/-- Line 83: `go func(dmc *DManager) { ... }(dm)` — one more watchdog
goroutine for `id` starts running. -/
def setSpawn (s : DMState) (id : String) : DMState :=
  { s with wdog := upd s.wdog id (s.wdog id + 1) }

/-- Lines 101-108: the non-blocking `select` enqueue, resetting the
counter on success and dropping the envelope silently when the channel
is full. -/
def setEnqueue (s : DMState) (id : String) (info : SignalingInfo) : DMState :=
  match s.datas id with
  | some q =>
      if q.length < MAX_BUFFER_NUMBER then
        DMResetAlive { s with datas := upd s.datas id (some (q ++ [info])) } id
      else s
  | none => s

/-! ## Go `int32` arithmetic (pkg/impl sender.go)

`Sender.Type` is an `int32`.  Two's-complement int32 values are modelled
as integers in `[-2^31, 2^31)`; `toU32` is the unsigned bit pattern of a
value, `ofU32` reads a bit pattern back as a signed value.  Go's `<<`
on int32 keeps the low 32 bits of the shifted pattern, `>>` is an
arithmetic (floor) shift, `|` and `&` operate on the patterns. -/

/-- Unsigned 32-bit pattern of an integer (two's complement); `%` on
`Int` is the Euclidean remainder, which is non-negative here. -/
def toU32 (x : Int) : Nat := (x % (2 ^ 32 : Int)).toNat

/-- Signed int32 value of a 32-bit pattern. -/
def ofU32 (n : Nat) : Int :=
  if n % 2 ^ 32 < 2 ^ 31 then ((n % 2 ^ 32 : Nat) : Int)
  else ((n % 2 ^ 32 : Nat) : Int) - 2 ^ 32

/-- Go `x << n` on `int32`. -/
def shl32 (x : Int) (n : Nat) : Int := ofU32 (toU32 x <<< n)

/-- Go `x >> n` on `int32`: arithmetic shift, i.e. floor division. -/
def sar32 (x : Int) (n : Nat) : Int := Int.fdiv x (2 ^ n)

/-- Go `a | b` on `int32`. -/
def or32 (a b : Int) : Int := ofU32 (toU32 a ||| toU32 b)

/-- Go `a & b` on `int32`. -/
def and32 (a b : Int) : Int := ofU32 (toU32 a &&& toU32 b)

/-- `impl.Sender` (pkg/impl/sender.go lines 168-194). -/
structure Sender where
  Type' : Int
  PairId : List Nat
  Detach : Bool
  LocalEntry : String
  Payload : List Nat
  Status : Int
deriving DecidableEq, Repr

/-- The `Type` field computed by `NewSender` (sender.go line 222):
`(imp.Code() << flagLen) | optCode` in int32 arithmetic.  The constant
`flagLen` lives in `pkg/impl/impl.go`, which is not part of the sources
here; it is kept as an explicit parameter, constrained as the spec
constrains it (`N ≥ 8`) at the use sites. -/
def newSenderType (code : Int) (flagLen : Nat) (optCode : Int) : Int :=
  or32 (shl32 code flagLen) optCode

/-- `Sender.GetAppCode` (sender.go lines 254-257): `sender.Type >> flagLen`. -/
def GetAppCode (type' : Int) (flagLen : Nat) : Int := sar32 type' flagLen

/-- `Sender.GetOptionCode` (sender.go lines 269-272): `sender.Type & 0xff`. -/
def GetOptionCode (type' : Int) : Int := and32 type' 255

/-- Result of `Sender.Send` (sender.go lines 323-352): the returned
connection (`none` models Go's nil) and the returned error (`none`
models a nil error). -/
structure SendResult where
  conn : Option Nat
  err : Option String
deriving DecidableEq, Repr

/-- `Sender.Send` (sender.go lines 323-352), with the three I/O
operations it performs abstracted as oracle outcomes: `dial` is the
connection `net.Dial` yields (or `none` on error), `encOk` is whether
the gob encode onto the connection succeeds, and `decResult` is the
reply the gob decode produces (or `none` on error).  The decoded reply
overwrites the sender; a non-zero `Status` yields a nil connection and
the error `response error`. -/
def Send (dial : Option Nat) (encOk : Bool) (decResult : Option Sender) : SendResult :=
  match dial with
  | none => ⟨none, some "dial error"⟩
  | some conn =>
      if encOk then
        match decResult with
        | none => ⟨none, some "decode error"⟩
        | some reply =>
            if reply.Status ≠ 0 then ⟨none, some "response error"⟩
            else ⟨some conn, none⟩
      else ⟨none, some "encode error"⟩

/-! ## `impl.BaseImpl` (pkg/impl/impl_base.go)

The `conn *net.Conn` pointer is an `Option`: `none` is the nil pointer
a fresh `BaseImpl` holds.  Accessors that execute `*base.conn` are
partial: their `none` result models the nil-pointer-dereference panic.
`Close` guards the dereference with a nil check, so it is total; its
Boolean result records whether a connection was closed. -/

structure BaseImpl where
  HId : String
  conn : Option Nat
  Parent : String
  PId : String
  ConnectNow : Bool
deriving DecidableEq, Repr

/-- `NewBaseImpl` (impl_base.go lines 36-41): only `ConnectNow` and the
host id are set; `conn` is the nil pointer. -/
def NewBaseImpl (hid : String) : BaseImpl :=
  { HId := hid, conn := none, Parent := "", PId := "", ConnectNow := true }

/-- `BaseImpl.SetConn` (impl_base.go lines 86-91): store the connection
behind the pointer. -/
def BaseImpl.SetConn (b : BaseImpl) (c : Nat) : BaseImpl :=
  { b with conn := some c }

/-- `BaseImpl.Conn` (impl_base.go lines 53-57): `*base.conn`; `none`
models the panic on a nil pointer. -/
def BaseImpl.Conn (b : BaseImpl) : Option Nat := b.conn

/-- `BaseImpl.Reader` (impl_base.go lines 93-97): `*base.conn`. -/
def BaseImpl.Reader (b : BaseImpl) : Option Nat := b.conn

/-- `BaseImpl.Writer` (impl_base.go lines 99-103): `*base.conn`. -/
def BaseImpl.Writer (b : BaseImpl) : Option Nat := b.conn

/-- `BaseImpl.ReadWriteCloser` (impl_base.go lines 105-109): `*base.conn`. -/
def BaseImpl.ReadWriteCloser (b : BaseImpl) : Option Nat := b.conn

/-- `BaseImpl.Close` (impl_base.go lines 115-121): dereference only after
a nil check, so it never panics; returns whether a connection was
closed. -/
def BaseImpl.Close (b : BaseImpl) : Bool :=
  match b.conn with
  | some _ => true
  | none => false

/-! ## Concrete fixtures

Closed sample values used to evaluate the theorems below on concrete
inputs. -/

/-- A sample offer envelope. -/
def envA : SignalingInfo := ⟨3, "peer-a", "sdp-offer", [1, 2], ⟨9, 0, 0⟩, "peer-b", 1, 0⟩

/-- A second, distinct sample envelope. -/
def envB : SignalingInfo := ⟨2, "peer-a", "", [], zeroPoolId, "peer-b", 0, 0⟩

/-- The manager state after a single `Set("b", envA)` on a fresh manager. -/
def sOne : DMState := DMSet initState "b" envA

/-- A manager state whose mailbox for peer `b` is full: 64 queued copies
of `envB`, counter 15, one watchdog. -/
def sFull : DMState :=
  { datas := upd (fun _ => none) "b" (some (List.replicate 64 envB))
    alive := upd (fun _ => none) "b" (some 15)
    wdog := upd (fun _ => 0) "b" 1 }

/-- A `Sender` reply whose `Status` reports success. -/
def replyOk : Sender := ⟨0, [], false, "127.0.0.1:2224", [], 0⟩

/-- The state reached by two concurrent `Set("b", ...)` calls A and B on
a fresh manager when both goroutines evaluate the unlocked guard of
data_manager.go line 73 before either locked create runs: both observe
`nil` (the guard's value on `initState`), so A executes lines 74-83,
then B executes lines 74-83 — overwriting A's channel and spawning a
second watchdog — and then each performs its enqueue (lines 101-108). -/
def raceState : DMState :=
  setEnqueue
    (setEnqueue
      (setSpawn (DMResetAlive (setCreate
        (setSpawn (DMResetAlive (setCreate initState "b") "b") "b") "b") "b") "b")
      "b" envA)
    "b" envB

/-! ## Helper lemmas -/

/-- gob round-trip for the nested `PoolId` struct. -/
theorem poolid_roundtrip (p : PoolId) : decodePoolId (encodePoolId p) = some p := by
  cases p with
  | mk v d i =>
    simp only [encodePoolId, decodePoolId]
    split_ifs <;> simp_all [setPoolIdField, zeroPoolId]

/-- Consuming one optional (possibly omitted) encoded field during a
decode: either the token assigns the field, or the field was omitted
because it already held the zero value. -/
theorem decodeFrom_chunk (acc acc' : SignalingInfo) (c : Prop) [Decidable c]
    (tok : GobField) (rest : List GobField)
    (hset : setSignalingField acc tok = some acc') (hz : ¬c → acc' = acc) :
    decodeFrom acc ((if c then [tok] else []) ++ rest) = decodeFrom acc' rest := by
  by_cases h : c
  · simp [h, decodeFrom, hset]
  · simp [h, decodeFrom, hz h]

/-- C3: gob-decoding the gob-encoding of a signaling envelope yields the
envelope back, equal in all eight fields (the encoder omits zero-valued
fields and the decoder fills exactly those with the zero value). -/
theorem signaling_gob_roundtrip (x : SignalingInfo) :
    decodeSignalingInfo (encodeSignalingInfo x) = some x := by
  cases x with
  | mk fl so sd ca pid ta pt rr =>
    show decodeFrom ⟨0, "", "", [], zeroPoolId, "", 0, 0⟩ _ = _
    simp only [encodeSignalingInfo, List.append_assoc]
    rw [decodeFrom_chunk ⟨0, "", "", [], zeroPoolId, "", 0, 0⟩ ⟨fl, "", "", [], zeroPoolId, "", 0, 0⟩
      (fl ≠ 0) (GobField.fInt 0 fl) _ rfl
      (by intro h; simp only [ne_eq, Decidable.not_not] at h; subst h; rfl)]
    rw [decodeFrom_chunk ⟨fl, "", "", [], zeroPoolId, "", 0, 0⟩ ⟨fl, so, "", [], zeroPoolId, "", 0, 0⟩
      (so ≠ "") (GobField.fStr 1 so) _ rfl
      (by intro h; simp only [ne_eq, Decidable.not_not] at h; subst h; rfl)]
    rw [decodeFrom_chunk ⟨fl, so, "", [], zeroPoolId, "", 0, 0⟩ ⟨fl, so, sd, [], zeroPoolId, "", 0, 0⟩
      (sd ≠ "") (GobField.fStr 2 sd) _ rfl
      (by intro h; simp only [ne_eq, Decidable.not_not] at h; subst h; rfl)]
    rw [decodeFrom_chunk ⟨fl, so, sd, [], zeroPoolId, "", 0, 0⟩ ⟨fl, so, sd, ca, zeroPoolId, "", 0, 0⟩
      (ca ≠ []) (GobField.fBytes 3 ca) _ rfl
      (by intro h; simp only [ne_eq, Decidable.not_not] at h; subst h; rfl)]
    rw [decodeFrom_chunk ⟨fl, so, sd, ca, zeroPoolId, "", 0, 0⟩ ⟨fl, so, sd, ca, pid, "", 0, 0⟩
      (pid ≠ zeroPoolId) (GobField.fSub 4 (encodePoolId pid)) _
      (by simp [setSignalingField, poolid_roundtrip])
      (by intro h; simp only [ne_eq, Decidable.not_not] at h; subst h; rfl)]
    rw [decodeFrom_chunk ⟨fl, so, sd, ca, pid, "", 0, 0⟩ ⟨fl, so, sd, ca, pid, ta, 0, 0⟩
      (ta ≠ "") (GobField.fStr 5 ta) _ rfl
      (by intro h; simp only [ne_eq, Decidable.not_not] at h; subst h; rfl)]
    rw [decodeFrom_chunk ⟨fl, so, sd, ca, pid, ta, 0, 0⟩ ⟨fl, so, sd, ca, pid, ta, pt, 0⟩
      (pt ≠ 0) (GobField.fInt 6 pt) _ rfl
      (by intro h; simp only [ne_eq, Decidable.not_not] at h; subst h; rfl)]
    rw [← List.append_nil (if rr ≠ 0 then [GobField.fInt 7 rr] else [])]
    rw [decodeFrom_chunk ⟨fl, so, sd, ca, pid, ta, pt, 0⟩ ⟨fl, so, sd, ca, pid, ta, pt, rr⟩
      (rr ≠ 0) (GobField.fInt 7 rr) _ rfl
      (by intro h; simp only [ne_eq, Decidable.not_not] at h; subst h; rfl)]
    rfl

/-! ## C8: the packed `Type` field of `Sender` -/

/-- `toU32` of a natural number is reduction mod 2^32. -/
theorem toU32_natCast (n : Nat) : toU32 (n : Int) = n % 2 ^ 32 := by
  unfold toU32
  rw [show ((2:Int) ^ 32) = ((2 ^ 32 : Nat) : Int) by push_cast]
  rw [← Int.natCast_mod]
  exact Int.toNat_natCast _

theorem ofU32_small (n : Nat) (h : n < 2 ^ 31) : ofU32 n = (n : Int) := by
  unfold ofU32
  have h32 : n % 2 ^ 32 = n := Nat.mod_eq_of_lt (lt_trans h (by norm_num))
  rw [h32, if_pos h]

theorem u32_pack (sn om fn : Nat) (ho : om < 256) (hf : 8 ≤ fn) :
    (sn * 2 ^ fn) ||| om = sn * 2 ^ fn + om := by
  have h1 : om < 2 ^ fn :=
    lt_of_lt_of_le ho (Nat.pow_le_pow_right (show 0 < 2 by norm_num) hf)
  rw [Nat.mul_comm sn (2 ^ fn), ← Nat.mul_add_lt_is_or h1 sn]

/-- C8 counterexample: with `flagLen = 8`, the service opcode
`s = 2 ^ 23` overflows int32 when packed — `(s << 8) | 0` wraps to
`-2^31` — so `GetAppCode` returns `-2^23`, not `s`: the round-trip
claim fails without a no-overflow bound. -/
theorem sender_counterexample :
    GetAppCode (newSenderType 8388608 8 0) 8 ≠ 8388608 := by decide

/-- C8 (amended): for service opcode `s ≥ 0`, operation opcode
`0 ≤ o < 256` and `flagLen ≥ 8` such that the packed value
`s * 2 ^ flagLen + o` fits in a non-negative int32 (is `< 2^31`),
`GetAppCode` recovers `s` and `GetOptionCode` recovers `o` from the
packed `Type` field.  The constant `flagLen` lives in `pkg/impl/impl.go`
(absent from these sources) and is constrained as the spec constrains
it. -/
theorem sender_type_roundtrip (s o : Int) (f : Nat) (hs : 0 ≤ s) (ho : 0 ≤ o)
    (ho2 : o < 256) (hf : 8 ≤ f) (hfit : s * 2 ^ f + o < 2 ^ 31) :
    GetAppCode (newSenderType s f o) f = s ∧ GetOptionCode (newSenderType s f o) = o := by
  obtain ⟨sn, rfl⟩ : ∃ n : Nat, s = n := ⟨s.toNat, (Int.toNat_of_nonneg hs).symm⟩
  obtain ⟨om, rfl⟩ : ∃ n : Nat, o = n := ⟨o.toNat, (Int.toNat_of_nonneg ho).symm⟩
  have ho2' : om < 256 := by exact_mod_cast ho2
  have hfit' : sn * 2 ^ f + om < 2 ^ 31 := by exact_mod_cast hfit
  have hsn31 : sn * 2 ^ f < 2 ^ 31 := by omega
  have hpow : (0:Nat) < 2 ^ f := by positivity
  have hsn32 : sn < 2 ^ 32 := by
    have h1 : sn ≤ sn * 2 ^ f := Nat.le_mul_of_pos_right sn hpow
    omega
  have hlt32 : sn * 2 ^ f + om < 2 ^ 32 := by omega
  have hlt32' : sn * 2 ^ f < 2 ^ 32 := by omega
  have hom32 : om % 2 ^ 32 = om := Nat.mod_eq_of_lt (by omega)
  have hcast : ((2:Int) ^ f) = ((2 ^ f : Nat) : Int) := by
    rw [Int.natCast_pow]
    norm_num
  have hpack : newSenderType (sn : Int) f (om : Int) = ((sn * 2 ^ f + om : Nat) : Int) := by
    unfold newSenderType shl32
    rw [toU32_natCast, Nat.mod_eq_of_lt hsn32, Nat.shiftLeft_eq, ofU32_small _ hsn31]
    unfold or32
    rw [toU32_natCast, toU32_natCast, Nat.mod_eq_of_lt hlt32', hom32]
    rw [u32_pack sn om f ho2' hf, ofU32_small _ hfit']
  constructor
  · unfold GetAppCode sar32
    rw [hpack, Int.fdiv_eq_ediv _ (by positivity), hcast, ← Int.natCast_div]
    have hq : (sn * 2 ^ f + om) / 2 ^ f = sn := by
      rw [Nat.mul_comm sn (2 ^ f), Nat.mul_add_div hpow]
      have h1 : om < 2 ^ f :=
        lt_of_lt_of_le ho2' (Nat.pow_le_pow_right (show 0 < 2 by norm_num) hf)
      rw [Nat.div_eq_of_lt h1, Nat.add_zero]
    rw [hq]
  · unfold GetOptionCode and32
    rw [show (255:Int) = ((255:Nat):Int) by norm_cast]
    rw [hpack, toU32_natCast, toU32_natCast, Nat.mod_eq_of_lt hlt32,
      Nat.mod_eq_of_lt (show (255:Nat) < 2 ^ 32 by norm_num)]
    rw [show (255 : Nat) = 2 ^ 8 - 1 by norm_num, Nat.and_pow_two_sub_one_eq_mod]
    have hmod : (sn * 2 ^ f + om) % 2 ^ 8 = om := by
      have hdecomp : sn * 2 ^ f = sn * 2 ^ (f - 8) * 2 ^ 8 := by
        rw [Nat.mul_assoc, ← Nat.pow_add, show f - 8 + 8 = f from by omega]
      rw [hdecomp, Nat.add_comm, Nat.add_mul_mod_self_right,
        Nat.mod_eq_of_lt (show om < 2 ^ 8 by omega)]
    rw [hmod, ofU32_small _ (by omega)]

@[simp] theorem upd_same {α : Type} (f : String → α) (k : String) (v : α) : upd f k v k = v := by
  simp [upd]

theorem DMSet_absent (s : DMState) (id : String) (info : SignalingInfo)
    (h : s.datas id = none) :
    (DMSet s id info).datas id = some [info] ∧ (DMSet s id info).alive id = some 15 := by
  simp [DMSet, h, DMResetAlive, MAX_BUFFER_NUMBER, LIFE_TIME_IN_SECOND]

theorem DMSet_room (s : DMState) (id : String) (info : SignalingInfo) (q : List SignalingInfo)
    (hq : s.datas id = some q) (hlen : q.length < MAX_BUFFER_NUMBER) :
    (DMSet s id info).datas id = some (q ++ [info]) ∧ (DMSet s id info).alive id = some 15 := by
  simp [DMSet, hq, hlen, DMResetAlive, LIFE_TIME_IN_SECOND]

theorem DMSet_full (s : DMState) (id : String) (info : SignalingInfo) (q : List SignalingInfo)
    (hq : s.datas id = some q) (hlen : MAX_BUFFER_NUMBER ≤ q.length) :
    DMSet s id info = s := by
  simp [DMSet, hq, Nat.not_lt_of_le hlen]

/-- `DMSet` is the sequential composition of the critical sections of
`Set`: the unlocked guard of line 73, then — when it read `nil` — the
locked create, the locked counter reset and the watchdog spawn (lines
74-83), and finally the non-blocking enqueue (lines 101-108). -/
theorem DMSet_eq_actions (s : DMState) (id : String) (info : SignalingInfo) :
    DMSet s id info =
      if s.datas id = none
      then setEnqueue (setSpawn (DMResetAlive (setCreate s id) id) id) id info
      else setEnqueue s id info := by
  by_cases h : s.datas id = none <;>
    simp [DMSet, setCreate, setSpawn, setEnqueue, DMResetAlive, h]

/-- C7: a `Set` that enqueues successfully (mailbox absent, or present
with fewer than 64 queued) resets the peer idle counter to 15; a `Set`
that finds the FIFO full returns with the whole manager state unchanged
— same FIFO contents, same counter — and never blocks. -/
theorem set_reset_or_frame (s : DMState) (id : String) (info : SignalingInfo) :
    (∀ q : List SignalingInfo, s.datas id = some q → MAX_BUFFER_NUMBER ≤ q.length →
        DMSet s id info = s)
    ∧ (∀ q : List SignalingInfo, s.datas id = some q → q.length < MAX_BUFFER_NUMBER →
        (DMSet s id info).datas id = some (q ++ [info])
          ∧ (DMSet s id info).alive id = some 15)
    ∧ (s.datas id = none →
        (DMSet s id info).datas id = some [info] ∧ (DMSet s id info).alive id = some 15) := by
  refine ⟨fun q hq hlen => DMSet_full s id info q hq hlen,
    fun q hq hlen => DMSet_room s id info q hq hlen,
    fun h => DMSet_absent s id info h⟩

/-- C4: `GET /pull/{self_id}` never blocks: with an absent mailbox (nil
channel from `Get`) or an empty one, the handler returns an empty body
with success status and changes nothing; otherwise it dequeues exactly
the head envelope, sets Content-Type `application/binary` and writes its
binary encoding. -/
theorem pull_spec (s : DMState) (id : String) :
    ((s.datas id = none ∨ s.datas id = some []) → pull s id = (s, ⟨200, none, none⟩))
    ∧ (∀ (v : SignalingInfo) (rest : List SignalingInfo), s.datas id = some (v :: rest) →
        pull s id =
          ({ s with datas := upd s.datas id (some rest) },
            ⟨200, some "application/binary", some (encodeSignalingInfo v)⟩)) := by
  constructor
  · rintro (h | h) <;> simp [pull, recvOne, h]
  · intro v rest h
    simp [pull, recvOne, h]

/-- C5 (amended): `POST /push/{target_id}` with a body that fails binary
decoding responds 400 and modifies no mailbox; on successful decode the
envelope is handed to `Set` for `target_id`, which enqueues it whenever
the target mailbox is absent or has room (the capacity rule of C1/C7
drops it when the mailbox is full). -/
theorem push_spec (s : DMState) (targetId : String) (body : List GobField) :
    (decodeSignalingInfo body = none → push s targetId body = (s, ⟨400, none, none⟩))
    ∧ (∀ info : SignalingInfo, decodeSignalingInfo body = some info →
        push s targetId body = (DMSet s targetId info, ⟨200, none, none⟩)
        ∧ (s.datas targetId = none → (push s targetId body).1.datas targetId = some [info])
        ∧ (∀ q : List SignalingInfo, s.datas targetId = some q →
            q.length < MAX_BUFFER_NUMBER →
            (push s targetId body).1.datas targetId = some (q ++ [info]))) := by
  constructor
  · intro h
    simp [push, h]
  · intro info h
    refine ⟨by simp [push, h], fun habs => ?_, fun q hq hlen => ?_⟩
    · simp [push, h, (DMSet_absent s targetId info habs).1]
    · simp [push, h, (DMSet_room s targetId info q hq hlen).1]

theorem foldSet_take (es : List SignalingInfo) :
    ∀ (s : DMState) (id : String) (q : List SignalingInfo),
      s.datas id = some q → q.length ≤ MAX_BUFFER_NUMBER →
      (foldSet s id es).datas id = some ((q ++ es).take MAX_BUFFER_NUMBER) := by
  induction es with
  | nil =>
      intro s id q hq hlen
      simp [foldSet]
      rw [hq, List.take_of_length_le hlen]
  | cons e es ih =>
      intro s id q hq hlen
      by_cases hroom : q.length < MAX_BUFFER_NUMBER
      · have h1 := DMSet_room s id e q hq hroom
        have h2 : (q ++ [e]).length ≤ MAX_BUFFER_NUMBER := by
          simp
          omega
        have h3 := ih (DMSet s id e) id (q ++ [e]) h1.1 h2
        show (foldSet s id (e :: es)).datas id = _
        rw [show foldSet s id (e :: es) = foldSet (DMSet s id e) id es from rfl, h3]
        simp
      · have hfull : MAX_BUFFER_NUMBER ≤ q.length := Nat.le_of_not_lt hroom
        have hlen64 : q.length = MAX_BUFFER_NUMBER := Nat.le_antisymm hlen hfull
        have h1 := DMSet_full s id e q hq hfull
        have h3 := ih s id q hq hlen
        show (foldSet s id (e :: es)).datas id = _
        rw [show foldSet s id (e :: es) = foldSet (DMSet s id e) id es from rfl, h1, h3]
        rw [List.take_append_of_le_length (by omega), List.take_append_of_le_length (by omega)]

theorem drain_take (n : Nat) :
    ∀ (s : DMState) (id : String) (q : List SignalingInfo),
      s.datas id = some q → q.length ≤ n →
      (drain s id n).2 = q ∧ (drain s id n).1.datas id = some [] := by
  induction n with
  | zero =>
      intro s id q hq hlen
      have : q = [] := List.eq_nil_of_length_eq_zero (Nat.le_zero.mp hlen)
      subst this
      exact ⟨rfl, hq⟩
  | succ n ih =>
      intro s id q hq hlen
      cases q with
      | nil =>
          simp [drain, recvOne, hq]
      | cons v rest =>
          have hrest : ({ s with datas := upd s.datas id (some rest) } : DMState).datas id
              = some rest := by simp
          have h1 := ih { s with datas := upd s.datas id (some rest) } id rest hrest
            (by simpa using Nat.le_of_succ_le_succ hlen)
          simp only [drain, recvOne, hq]
          exact ⟨by simp [h1.1], by simp [h1.2]⟩

/-- C1: folding 65 `Set` calls for one peer over a fresh manager leaves
exactly the first 64 envelopes queued, in enqueue order (the 65th is
dropped silently), and 65 subsequent non-blocking dequeues yield exactly
those 64 envelopes and then find the mailbox empty. -/
theorem mailbox_overflow (es : List SignalingInfo) (id : String) (h : es.length = 65) :
    (foldSet initState id es).datas id = some (es.take 64)
    ∧ (drain (foldSet initState id es) id 65).2 = es.take 64
    ∧ (drain (foldSet initState id es) id 65).1.datas id = some [] := by
  cases es with
  | nil => simp at h
  | cons e rest =>
      have h1 := DMSet_absent initState id e rfl
      have h2 := foldSet_take rest (DMSet initState id e) id [e] h1.1
        (by simp [MAX_BUFFER_NUMBER])
      have hdat : (foldSet initState id (e :: rest)).datas id
          = some ((e :: rest).take 64) := by
        rw [show foldSet initState id (e :: rest) = foldSet (DMSet initState id e) id rest
          from rfl, h2]
        rfl
      have hlen : ((e :: rest).take 64).length ≤ 65 := by
        simp
      have h3 := drain_take 65 (foldSet initState id (e :: rest)) id _ hdat hlen
      exact ⟨hdat, h3.1, h3.2⟩

/-- Ticking `k` times subtracts `k` from the idle counter. -/
theorem tickN_drop (k : Nat) :
    ∀ (s : DMState) (id : String) (v : Int), s.alive id = some v →
      (tickN s id k).alive id = some (v - k) := by
  induction k with
  | zero =>
      intro s id v h
      simpa [tickN] using h
  | succ k ih =>
      intro s id v h
      have hstep : (tickEffect s id).alive id = some (v - 1) := by
        simp [tickEffect, aliveVal, h]
      show (tickN (tickEffect s id) id k).alive id = _
      rw [ih _ _ _ hstep]
      congr 1
      push_cast
      ring

theorem tickN_countdown (k : Nat) :
    ∀ (s : DMState) (id : String), s.alive id = some (k : Int) →
      (tickN s id k).alive id = some 0 := by
  induction k with
  | zero =>
      intro s id h
      simpa [tickN] using h
  | succ k ih =>
      intro s id h
      show (tickN (tickEffect s id) id k).alive id = some 0
      apply ih
      simp [tickEffect, aliveVal, h]

/-- C2: a peer whose counter holds 15 and receives no successful enqueue
for 15 consecutive one-second watchdog ticks reaches counter 0; the
watchdog then calls `Clean`, which removes the peer from both the
`datas` and `alive` maps (closing its FIFO); a subsequent `Set` for the
same id recreates the mailbox holding just the new envelope with a
counter of 15. -/
theorem idle_eviction (s : DMState) (id : String) (info : SignalingInfo)
    (h : s.alive id = some 15) :
    (tickN s id 15).alive id = some 0
    ∧ (DMClean (tickN s id 15) id).datas id = none
    ∧ (DMClean (tickN s id 15) id).alive id = none
    ∧ (DMSet (DMClean (tickN s id 15) id) id info).datas id = some [info]
    ∧ (DMSet (DMClean (tickN s id 15) id) id info).alive id = some 15 := by
  have h0 : (tickN s id 15).alive id = some 0 := tickN_countdown 15 s id (by exact_mod_cast h)
  have hclean : (DMClean (tickN s id 15) id).datas id = none := by simp [DMClean]
  have hclean2 : (DMClean (tickN s id 15) id).alive id = none := by simp [DMClean]
  have hset := DMSet_absent (DMClean (tickN s id 15) id) id info hclean
  exact ⟨h0, hclean, hclean2, hset.1, hset.2⟩

/-- C6: the claimed invariant — exactly one watchdog per live peer, idle
counter always in `[0, 15]` — is the design the spec documents, but the
code misses it: the guard `dm.datas[id] == nil` (data_manager.go line
73) is evaluated *outside* the mutex, so two concurrent `Set` calls for
a fresh peer can both read `nil` (the first conjunct is the value both
unlocked reads return on the fresh manager, before either locked create
runs); the completed interleaving `raceState` leaves the single live
peer `"b"` — in both maps, mailbox holding both envelopes — with two
running watchdogs.  With two watchdogs, both loop guards `alive[id] > 0`
pass when the counter reads 1, and the two locked decrements that follow
the two sleeps drive the counter to -1, outside `[0, 15]`. -/
theorem watchdog_race :
    initState.datas "b" = none
    ∧ (raceState.alive "b").isSome = true
    ∧ raceState.datas "b" = some [envA, envB]
    ∧ raceState.wdog "b" = 2
    ∧ 0 < aliveVal (tickN raceState "b" 14) "b"
    ∧ (tickEffect (tickEffect (tickN raceState "b" 14) "b") "b").alive "b" = some (-1) := by
  have h15 : raceState.alive "b" = some 15 := by decide
  have h1 : (tickN raceState "b" 14).alive "b" = some 1 := by
    have h := tickN_drop 14 raceState "b" 15 h15
    norm_num at h
    exact h
  refine ⟨rfl, by rw [h15]; rfl, by decide, by decide, ?_, ?_⟩
  · rw [aliveVal, h1]
    norm_num
  · simp [tickEffect, aliveVal, upd, h1]

/-- C9: `Sender.Send` returns a non-nil connection exactly when the TCP
dial, the gob encode of the request and the gob decode of the reply all
succeed and the decoded `Status` is 0; a decoded non-zero `Status`
yields a nil connection together with the `response error` error. -/
theorem send_spec (dial : Option Nat) (encOk : Bool) (dec : Option Sender) :
    ((Send dial encOk dec).conn.isSome ↔
      (dial.isSome ∧ encOk = true ∧ ∃ r : Sender, dec = some r ∧ r.Status = 0))
    ∧ (∀ (c : Nat) (r : Sender), dial = some c → encOk = true → dec = some r →
        r.Status ≠ 0 → Send dial encOk dec = ⟨none, some "response error"⟩)
    ∧ (∀ (c : Nat) (r : Sender), dial = some c → encOk = true → dec = some r →
        r.Status = 0 → Send dial encOk dec = ⟨some c, none⟩) := by
  refine ⟨?_, ?_, ?_⟩
  · rcases dial with _ | c <;> cases encOk <;> rcases dec with _ | r <;> simp [Send]
    by_cases hr : r.Status = 0 <;> simp [hr]
  · intro c r h1 h2 h3 h4
    subst h1
    subst h2
    subst h3
    simp [Send, h4]
  · intro c r h1 h2 h3 h4
    subst h1
    subst h2
    subst h3
    simp [Send, h4]

/-- C10: after `SetConn c`, the accessors `Conn`, `Reader`, `Writer` and
`ReadWriteCloser` of a `BaseImpl` all return `c`; while the connection
pointer is still nil each of them dereferences the nil pointer (the
`none` result models the panic), whereas `Close` nil-checks first and
returns without panicking. -/
theorem baseimpl_spec (b : BaseImpl) (c : Nat) (hid : String) :
    ((b.SetConn c).Conn = some c ∧ (b.SetConn c).Reader = some c
      ∧ (b.SetConn c).Writer = some c ∧ (b.SetConn c).ReadWriteCloser = some c)
    ∧ (b.conn = none → (b.Conn = none ∧ b.Reader = none ∧ b.Writer = none
        ∧ b.ReadWriteCloser = none ∧ b.Close = false))
    ∧ ((NewBaseImpl hid).conn = none ∧ (NewBaseImpl hid).Close = false) := by
  refine ⟨⟨rfl, rfl, rfl, rfl⟩,
    fun h => ⟨h, h, h, h, by simp [BaseImpl.Close, h]⟩, rfl, rfl⟩


/-! ## Witnesses and counterexamples on concrete inputs -/

/-- C5 counterexample: a `POST /push` whose body decodes successfully to
`envA`, sent while the target mailbox holds 64 envelopes, answers 200
but enqueues nothing: the mailbox still holds exactly the old 64
envelopes and `envA` is not among them, contradicting "on successful
decode the envelope is enqueued for target\_id". -/
theorem push_enqueue_counterexample :
    decodeSignalingInfo (encodeSignalingInfo envA) = some envA
    ∧ (push sFull "b" (encodeSignalingInfo envA)).2.status = 200
    ∧ (push sFull "b" (encodeSignalingInfo envA)).1.datas "b" = some (List.replicate 64 envB)
    ∧ envA ∉ List.replicate 64 envB := by
  refine ⟨by decide, by decide, by decide, by decide⟩

theorem mailbox_overflow_witness :
    (foldSet initState "b" (List.replicate 65 envA)).datas "b"
      = some ((List.replicate 65 envA).take 64)
    ∧ (drain (foldSet initState "b" (List.replicate 65 envA)) "b" 65).2
      = (List.replicate 65 envA).take 64
    ∧ (drain (foldSet initState "b" (List.replicate 65 envA)) "b" 65).1.datas "b"
      = some [] :=
  mailbox_overflow (List.replicate 65 envA) "b" (by simp)

theorem idle_eviction_witness :
    (tickN sOne "b" 15).alive "b" = some 0
    ∧ (DMClean (tickN sOne "b" 15) "b").datas "b" = none
    ∧ (DMClean (tickN sOne "b" 15) "b").alive "b" = none
    ∧ (DMSet (DMClean (tickN sOne "b" 15) "b") "b" envB).datas "b" = some [envB]
    ∧ (DMSet (DMClean (tickN sOne "b" 15) "b") "b" envB).alive "b" = some 15 :=
  idle_eviction sOne "b" envB (by decide)

theorem pull_spec_witness :
    pull sOne "b" = ({ sOne with datas := upd sOne.datas "b" (some []) },
      ⟨200, some "application/binary", some (encodeSignalingInfo envA)⟩)
    ∧ pull initState "b" = (initState, ⟨200, none, none⟩) :=
  ⟨(pull_spec sOne "b").2 envA [] (by decide),
   (pull_spec initState "b").1 (Or.inl rfl)⟩

theorem push_spec_witness :
    push initState "b" [GobField.fStr 0 "x"] = (initState, ⟨400, none, none⟩) :=
  (push_spec initState "b" [GobField.fStr 0 "x"]).1 (by decide)

theorem set_reset_or_frame_witness : DMSet sFull "b" envA = sFull :=
  (set_reset_or_frame sFull "b" envA).1 (List.replicate 64 envB) (by decide) (by decide)

theorem sender_type_roundtrip_witness :
    GetAppCode (newSenderType 5 8 3) 8 = 5 ∧ GetOptionCode (newSenderType 5 8 3) = 3 :=
  sender_type_roundtrip 5 3 8 (by decide) (by decide) (by decide) (by decide) (by decide)

theorem send_spec_witness : Send (some 7) true (some replyOk) = ⟨some 7, none⟩ :=
  (send_spec (some 7) true (some replyOk)).2.2 7 replyOk rfl rfl rfl rfl

theorem baseimpl_spec_witness :
    ((NewBaseImpl "host").SetConn 5).Conn = some 5 ∧ (NewBaseImpl "host").Conn = none :=
  ⟨(baseimpl_spec (NewBaseImpl "host") 5 "host").1.1,
   ((baseimpl_spec (NewBaseImpl "host") 5 "host").2.1 rfl).1⟩


end Sshx
